import Mathlib

/-!
Verification development for a token-claim settlement server.

The server exposes two settlement endpoints. POST /claim/complete verifies a
fee-payment transaction on the ledger, recomputes the entitled amount from an
eligibility oracle, checks treasury balance, submits a token transfer from the
treasury and records the claim. POST /claim/referral does the same for a
referral-bonus channel, with a weaker proof step (a signature-status query).

The embedding below translates the two request handlers into pure functions
from an environment (the store contents, the ledger responses, the oracle
response) to a result carrying the HTTP status, the error message, the record
written (if any), the built transfer instruction (if any) and the ordered list
of external interactions performed. Every branch, message string and event
order mirrors src/index.js.
-/

namespace ClaimServer

/-- Events are the external interactions a handler performs, in program order.
`parsedTxFetch` models getParsedTransaction, `oracleCall` the checker HTTP
request, `mintFetch` getMint, `balanceFetch` getAccount on the treasury ATA,
`ataFetch` getAccountInfo on the user ATA, `blockhashFetch`
getLatestBlockhash, `txSubmit` sendTransaction, `confirmWait`
confirmTransaction, `statusQuery` getSignatureStatus, `recordWrite` the
Mongoose create call. -/
inductive Event where
  | parsedTxFetch
  | oracleCall
  | mintFetch
  | balanceFetch
  | ataFetch
  | blockhashFetch
  | txSubmit
  | confirmWait
  | statusQuery
  | recordWrite
  deriving DecidableEq

/-- Classifies which events are interactions with the ledger (the RPC node).
The oracle call and the database write are not ledger interactions; every
other event in the model is a ledger read, write or wait. -/
def isLedgerEvent : Event → Bool
  | .oracleCall => false
  | .recordWrite => false
  | _ => true

/-- Parsed info of a system transfer instruction, as returned in parsed form:
fields source, destination, lamports. -/
structure TransferInfo where
  source : String
  destination : String
  lamports : Nat
  deriving DecidableEq

/-- One instruction of a parsed transaction. `program` models ix.program,
`ptype` models ix.parsed.type (none when the parsed form is absent), `info`
models ix.parsed.info. -/
structure ParsedIx where
  program : String
  ptype : Option String
  info : Option TransferInfo
  deriving DecidableEq

/-- Transaction meta; `err` is true when meta.err is non-null. -/
structure TxMeta where
  err : Bool
  deriving DecidableEq

/-- A parsed transaction: meta (possibly absent), the account keys in base58
form, and the instruction list. -/
structure ParsedTx where
  meta : Option TxMeta
  accountKeys : List String
  instructions : List ParsedIx
  deriving DecidableEq

/-- Outcome of the fee-verification stage in /claim/complete. -/
inductive FeeCheck where
  | notFoundOrFailed
  | invalid
  | ok
  deriving DecidableEq

/-- Condition tested for each instruction inside the verification loop of
/claim/complete (src/index.js lines 118-138): the program must be "system",
the parsed type "transfer", the parsed info present, destination equal to the
fee collector, source equal to the wallet string, lamports equal to the
configured fee, and the signer flag (first account key equals the wallet)
must hold. All string comparisons are verbatim (case-sensitive). -/
def ixMatchesFee (wallet feeCollector : String) (fee : Nat) (signerMatches : Bool)
    (ix : ParsedIx) : Bool :=
  ix.program == "system" &&
  ix.ptype == some "transfer" &&
  (match ix.info with
   | none => false
   | some info =>
     info.destination == feeCollector &&
     info.source == wallet &&
     info.lamports == fee &&
     signerMatches)

/-- Fee verification of /claim/complete (src/index.js lines 104-139): the
fetched parsed transaction must exist, carry meta, and not be failed;
otherwise the result is `notFoundOrFailed`. Then the instruction list is
scanned for one satisfying `ixMatchesFee`, where the signer flag compares the
first account key with the wallet; if none matches the result is `invalid`. -/
def feeVerify (wallet feeCollector : String) (fee : Nat) (parsed : Option ParsedTx) :
    FeeCheck :=
  match parsed with
  | none => .notFoundOrFailed
  | some p =>
    match p.meta with
    | none => .notFoundOrFailed
    | some m =>
      if m.err then .notFoundOrFailed
      else
        let signerMatches := p.accountKeys.head? == some wallet
        if p.instructions.any (ixMatchesFee wallet feeCollector fee signerMatches)
        then .ok else .invalid

/-- Numeric value of a decimal digit character. -/
def digitVal (c : Char) : Nat := c.toNat - 48

/-- Decimal reading of a character list, most significant digit first. This
models BigInt(s) on a digit string. -/
def parseDigitsL (l : List Char) : Nat :=
  l.foldl (fun a c => a * 10 + digitVal c) 0

/-- Decimal reading of a string of digits. -/
def parseDigits (s : String) : Nat := parseDigitsL s.data

/-- Models the regular-expression test for one-or-more decimal digits applied
to the human amount string in both handlers. -/
def isDigits (s : String) : Bool :=
  !s.data.isEmpty && s.data.all (fun c => c.isDigit)

/-- Bit length computed with explicit fuel so that it reduces in the kernel;
`log2F n n` is the floor of the base-2 logarithm of n (0 for n below 2). -/
def log2F : Nat → Nat → Nat
  | 0, _ => 0
  | fuel + 1, n => if 2 ≤ n then log2F fuel (n / 2) + 1 else 0

/-- Models the JavaScript Number(bigint) conversion applied to a non-negative
integer: values below 2 to the 53 are represented exactly; larger values are
rounded to the nearest double, ties to the even mantissa. `src/index.js`
applies this conversion to the base-unit amount when building the transfer
instruction (the call Number(amountSmallest)). -/
def jsNumber (n : Nat) : Nat :=
  if n < 2 ^ 53 then n
  else
    let k := log2F n n - 52
    let q := n / 2 ^ k
    let r := n % 2 ^ k
    let half := 2 ^ (k - 1)
    let q2 :=
      if half < r then q + 1
      else if r < half then q
      else if q % 2 = 0 then q else q + 1
    q2 * 2 ^ k

/-- Models the JavaScript toLowerCase call applied to wallet strings, as a
per-character lowercase map (exact for the ASCII alphabet of ledger
addresses). -/
def lowerStr (s : String) : String := ⟨s.data.map Char.toLower⟩

/-- A record of the primary-claim store (models/Claim.js): wallet is the
unique key, amount holds the base-unit amount (stored as a decimal string in
the database, modelled as the integer it encodes), humanAmount the oracle
amount string, and status the record status. -/
structure StoredClaim where
  wallet : String
  amount : Nat
  humanAmount : String
  decimals : Nat
  tier : Option Int
  txSig : String
  feeSig : String
  status : String
  deriving DecidableEq

/-- Models Claim.findOne with the lowercased wallet (src/index.js line 100):
true when the store holds a record whose wallet field equals the lowercase
form of the submitted wallet string. -/
def alreadyClaimed (store : List StoredClaim) (wallet : String) : Bool :=
  store.any (fun r => r.wallet == lowerStr wallet)

/-- Oracle response for the primary channel: the eligible flag and the
finalTotal value rendered as a string (none when the field is absent or
falsy), plus the optional tier. -/
structure Elig where
  eligible : Bool
  finalTotal : Option String
  tier : Option Int
  deriving DecidableEq

/-- Outcome of awaiting finality on the submitted payout: either finality is
observed, or the bounded wait times out (confirmTransaction throws). -/
inductive ConfirmOutcome where
  | finalized
  | timeout
  deriving DecidableEq

/-- The transfer transaction built by a handler: whether an ATA-creation
instruction was included, and the amount passed to createTransferInstruction,
which in the source is Number(amountSmallest). -/
structure BuiltTransfer where
  createAta : Bool
  transferAmount : Nat
  deriving DecidableEq

/-- Environment of one /claim/complete request: the current store contents,
the ledger response for the fee transaction, the oracle response (none when
the checker request fails), the mint decimals, the treasury token balance,
whether the user ATA exists, the signature returned by sendTransaction, and
the finality outcome. -/
structure CompleteEnv where
  store : List StoredClaim
  parsedFeeTx : Option ParsedTx
  elig : Option Elig
  mintDecimals : Nat
  treasuryBalance : Nat
  userAtaExists : Bool
  sendSig : String
  confirm : ConfirmOutcome
  deriving DecidableEq

/-- Result of one /claim/complete request: HTTP status, error message (none
on success), the record written to the store (if any), the built transfer
(if the pipeline reached transaction building), and the ordered external
interactions. -/
structure HResult where
  status : Nat
  error : Option String
  record : Option StoredClaim
  builtTx : Option BuiltTransfer
  events : List Event
  deriving DecidableEq

/-- The /claim/complete handler (src/index.js lines 94-216). Stages in
program order: missing-field check; double-claim check against the store by
lowercased wallet; fee verification (one parsed-transaction fetch);
eligibility recomputation from the oracle; mint-decimals fetch; integer
check of the human amount; base-unit conversion with exact integer
arithmetic; treasury balance guard; user-ATA lookup, blockhash fetch and
transaction build (the transfer amount passes through the Number conversion);
submission and finality wait; record write only after finality, with status
confirmed. A finality timeout propagates to the catch block as a 500 with no
record written and no further ledger query. -/
def claimComplete (feeCollector : String) (claimFee : Nat)
    (wallet feeSig : Option String) (env : CompleteEnv) : HResult :=
  match wallet, feeSig with
  | some w, some fs =>
    if alreadyClaimed env.store w then
      ⟨400, some "Already claimed", none, none, []⟩
    else
      match feeVerify w feeCollector claimFee env.parsedFeeTx with
      | .notFoundOrFailed =>
        ⟨400, some "Fee tx not found or failed", none, none, [.parsedTxFetch]⟩
      | .invalid =>
        ⟨400, some "Fee payment invalid (amount/to/from mismatch)", none, none,
          [.parsedTxFetch]⟩
      | .ok =>
        match env.elig with
        | none =>
          ⟨500, some "Checker error", none, none, [.parsedTxFetch, .oracleCall]⟩
        | some eg =>
          if !(eg.eligible && eg.finalTotal.isSome) then
            ⟨403, some "Not eligible", none, none, [.parsedTxFetch, .oracleCall]⟩
          else
            let finalHuman := eg.finalTotal.getD ""
            let dec := env.mintDecimals
            if !(isDigits finalHuman) then
              ⟨400, some "finalTotal must be integer tokens (no decimal) on UI/server",
                none, none, [.parsedTxFetch, .oracleCall, .mintFetch]⟩
            else
              let amountSmallest := parseDigits finalHuman * 10 ^ dec
              if env.treasuryBalance < amountSmallest then
                ⟨400, some "Treasury balance insufficient", none, none,
                  [.parsedTxFetch, .oracleCall, .mintFetch, .balanceFetch]⟩
              else
                let built : BuiltTransfer :=
                  ⟨!env.userAtaExists, jsNumber amountSmallest⟩
                match env.confirm with
                | .timeout =>
                  ⟨500, some "finality timeout", none, some built,
                    [.parsedTxFetch, .oracleCall, .mintFetch, .balanceFetch,
                     .ataFetch, .blockhashFetch, .txSubmit, .confirmWait]⟩
                | .finalized =>
                  ⟨200, none,
                    some ⟨lowerStr w, amountSmallest, finalHuman, dec, eg.tier,
                      env.sendSig, fs, "confirmed"⟩,
                    some built,
                    [.parsedTxFetch, .oracleCall, .mintFetch, .balanceFetch,
                     .ataFetch, .blockhashFetch, .txSubmit, .confirmWait,
                     .recordWrite]⟩
  | _, _ => ⟨400, some "Missing wallet/feeSig", none, none, []⟩

/-- A record of the referral-claim store (models/ReferralClaim.js): wallet is
the unique key; amount holds the base-unit amount. -/
structure RefStored where
  wallet : String
  amount : Nat
  txSig : String
  status : String
  deriving DecidableEq

/-- Models ReferralClaim.findOne with the lowercased wallet
(src/index.js line 232). -/
def refAlreadyClaimed (store : List RefStored) (wallet : String) : Bool :=
  store.any (fun r => r.wallet == lowerStr wallet)

/-- Oracle response for the referral channel: the referralBonus value as an
integer (none when the field is absent; fractional bonuses fail the digit
check downstream and are outside this integer model, which no claim probes). -/
structure RefElig where
  referralBonus : Option Int
  deriving DecidableEq

/-- Environment of one /claim/referral request. `sigStatus` is the
confirmationStatus value returned by getSignatureStatus for the supplied
proof signature (none when the status is absent). -/
structure ReferralEnv where
  store : List RefStored
  sigStatus : Option String
  elig : Option RefElig
  mintDecimals : Nat
  treasuryBalance : Nat
  userAtaExists : Bool
  sendSig : String
  confirm : ConfirmOutcome
  deriving DecidableEq

/-- Result of one /claim/referral request. -/
structure RResult where
  status : Nat
  error : Option String
  record : Option RefStored
  builtTx : Option BuiltTransfer
  events : List Event
  deriving DecidableEq

/-- The /claim/referral handler (src/index.js lines 222-320). Stages in
program order: missing-field check; double-claim check against the referral
store by lowercased wallet; signature-status query on the ledger, requiring
confirmationStatus finalized; oracle call; rejection when the referral bonus
is absent, zero or negative; integer check of the bonus string; mint fetch;
conversion; treasury balance guard (500 on shortfall); ATA lookup, blockhash
fetch, build, submit, finality wait; record write only after finality with
status confirmed. -/
def claimReferral (wallet txSig : Option String) (env : ReferralEnv) : RResult :=
  match wallet, txSig with
  | some w, some _ts =>
    if refAlreadyClaimed env.store w then
      ⟨400, some "Referral bonus already claimed", none, none, []⟩
    else
      if !(env.sigStatus == some "finalized") then
        ⟨400, some "Transaction is not confirmed.", none, none, [.statusQuery]⟩
      else
        match env.elig with
        | none =>
          ⟨500, some "Checker error", none, none, [.statusQuery, .oracleCall]⟩
        | some eg =>
          match eg.referralBonus with
          | none =>
            ⟨400, some "No pending referral bonus to claim.", none, none,
              [.statusQuery, .oracleCall]⟩
          | some b =>
            if b ≤ 0 then
              ⟨400, some "No pending referral bonus to claim.", none, none,
                [.statusQuery, .oracleCall]⟩
            else
              let finalHuman := toString b
              if !(isDigits finalHuman) then
                ⟨400, some "Referral bonus must be integer tokens (no decimal) on server",
                  none, none, [.statusQuery, .oracleCall]⟩
              else
                let dec := env.mintDecimals
                let amountSmallest := parseDigits finalHuman * 10 ^ dec
                if env.treasuryBalance < amountSmallest then
                  ⟨500, some "Treasury balance insufficient for referral bonus", none,
                    none, [.statusQuery, .oracleCall, .mintFetch, .balanceFetch]⟩
                else
                  let built : BuiltTransfer :=
                    ⟨!env.userAtaExists, jsNumber amountSmallest⟩
                  match env.confirm with
                  | .timeout =>
                    ⟨500, some "finality timeout", none, some built,
                      [.statusQuery, .oracleCall, .mintFetch, .balanceFetch,
                       .ataFetch, .blockhashFetch, .txSubmit, .confirmWait]⟩
                  | .finalized =>
                    ⟨200, none,
                      some ⟨lowerStr w, amountSmallest, env.sendSig, "confirmed"⟩,
                      some built,
                      [.statusQuery, .oracleCall, .mintFetch, .balanceFetch,
                       .ataFetch, .blockhashFetch, .txSubmit, .confirmWait,
                       .recordWrite]⟩
  | _, _ => ⟨400, some "Missing wallet or txSig", none, none, []⟩

/-!
Concurrency model for two simultaneous settlement attempts on the same wallet
and channel. Each request that passes its verification stages interacts with
the shared store and the ledger in three atomic steps, in the order the
source performs them: the existence check (the findOne on the lowercased
wallet, src/index.js line 100), the disbursement (fee checks through
sendTransaction and the finality wait, lines 104-197, which for two identical
valid requests all pass), and the record insert (the create call, line 200,
which the unique index on the wallet field makes fail when a record already
exists). No reservation record is inserted before the disbursement step; the
store is written only at the final insert.
-/

/-- Position of a request in its three-step interaction with the shared
store: before the existence check, before the disbursement, before the final
insert, or one of the terminal outcomes (rejected as duplicate at the check,
recorded, or failed at the insert with a uniqueness conflict). -/
inductive RPhase where
  | atCheck
  | atDisburse
  | atInsert
  | doneDup
  | doneRecorded
  | doneConflict
  deriving DecidableEq

/-- Local state of one request: its phase and whether it has already
submitted a disbursement. -/
structure ReqState where
  phase : RPhase
  disbursed : Bool
  deriving DecidableEq

/-- Shared system state for two concurrent requests on the same wallet:
both request states, whether the store holds a record for the wallet, and
how many disbursements have been submitted to the ledger in total. -/
structure SysState where
  a : ReqState
  b : ReqState
  claimed : Bool
  disbCount : Nat
  deriving DecidableEq

/-- One atomic step of a single request against the shared claimed flag.
Returns the new request state, whether this step wrote the store, and
whether this step submitted a disbursement. At the check, a request seeing
an existing record stops as a duplicate; at the insert, a request seeing an
existing record fails with a uniqueness conflict, otherwise it writes the
record and is recorded. Terminal phases do not move. -/
def stepReq (claimed : Bool) (r : ReqState) : ReqState × Bool × Bool :=
  match r.phase with
  | .atCheck =>
    if claimed then ({ r with phase := .doneDup }, false, false)
    else ({ r with phase := .atDisburse }, false, false)
  | .atDisburse => ({ phase := .atInsert, disbursed := true }, false, true)
  | .atInsert =>
    if claimed then ({ r with phase := .doneConflict }, false, false)
    else ({ r with phase := .doneRecorded }, true, false)
  | _ => (r, false, false)

/-- One step of the interleaved system: the scheduled request (true for the
first) performs its next atomic step. -/
def sysStep (s : SysState) (who : Bool) : SysState :=
  if who then
    let (ra, wrote, disb) := stepReq s.claimed s.a
    { s with
      a := ra,
      claimed := s.claimed || wrote,
      disbCount := s.disbCount + (if disb then 1 else 0) }
  else
    let (rb, wrote, disb) := stepReq s.claimed s.b
    { s with
      b := rb,
      claimed := s.claimed || wrote,
      disbCount := s.disbCount + (if disb then 1 else 0) }

/-- Run a schedule (an interleaving of the two requests) from a state. -/
def runSched (sched : List Bool) (s : SysState) : SysState :=
  sched.foldl sysStep s

/-- Initial state: both requests at the existence check, no record for the
wallet, no disbursement submitted. -/
def initSys : SysState :=
  ⟨⟨.atCheck, false⟩, ⟨.atCheck, false⟩, false, 0⟩

/-- Number of requests that reached the recorded outcome. -/
def recCount (s : SysState) : Nat :=
  (if s.a.phase = .doneRecorded then 1 else 0) +
  (if s.b.phase = .doneRecorded then 1 else 0)

/-- Invariant: a recorded request implies the store holds the record, and
the two requests are never both recorded. -/
def recOK (s : SysState) : Bool :=
  (!(s.a.phase == .doneRecorded) || s.claimed) &&
  (!(s.b.phase == .doneRecorded) || s.claimed) &&
  !((s.a.phase == .doneRecorded) && (s.b.phase == .doneRecorded))

/-!
Concrete fixtures used to instantiate the theorems below on closed inputs.
-/

/-- Store holding one settled primary claim for the wallet key alice. -/
def storeC2 : List StoredClaim :=
  [⟨"alice", 1000000, "1", 6, none, "paysig0", "feesig0", "confirmed"⟩]

/-- Environment for a repeat primary attempt by a wallet already settled. -/
def envC2 : CompleteEnv :=
  ⟨storeC2, none, none, 6, 0, true, "paysig", .finalized⟩

/-- Store holding one settled referral claim for the wallet key alice. -/
def storeR2 : List RefStored :=
  [⟨"alice", 1000000, "paysig0", "confirmed"⟩]

/-- Environment for a repeat referral attempt by a wallet already settled. -/
def envR2 : ReferralEnv :=
  ⟨storeR2, none, none, 6, 0, true, "paysig", .finalized⟩

/-- A fee transaction that passes verification for wallet W3 and collector FC
with fee 15000000. -/
def feeTx3 : ParsedTx :=
  ⟨some ⟨false⟩, ["W3"], [⟨"system", some "transfer", some ⟨"W3", "FC", 15000000⟩⟩]⟩

/-- Environment in which a primary claim fully succeeds. -/
def envC3 : CompleteEnv :=
  ⟨[], some feeTx3, some ⟨true, some "40000", some 2⟩, 6, 100000000000, true,
    "paysig3", .finalized⟩

/-- Environment in which a referral claim fully succeeds. -/
def envR3 : ReferralEnv :=
  ⟨[], some "finalized", some ⟨some 7⟩, 6, 100000000000, true, "paysig3r", .finalized⟩

/-- A fee transaction that passes verification for wallet W4. -/
def feeTx4 : ParsedTx :=
  ⟨some ⟨false⟩, ["W4"], [⟨"system", some "transfer", some ⟨"W4", "FC", 15000000⟩⟩]⟩

/-- Environment in which a primary claim succeeds, used to evaluate the
conversion invariant on the stored record. -/
def envC4 : CompleteEnv :=
  ⟨[], some feeTx4, some ⟨true, some "40000", none⟩, 6, 100000000000, true,
    "paysig4", .finalized⟩

/-- A fee transaction that passes verification for wallet W5c. -/
def feeTx5 : ParsedTx :=
  ⟨some ⟨false⟩, ["W5c"],
    [⟨"system", some "transfer", some ⟨"W5c", "FC", 15000000⟩⟩]⟩

/-- Environment whose entitlement is 2 to the 53 plus 1 base units (mint with
zero decimals), exceeding the exact range of a double. -/
def envC5 : CompleteEnv :=
  ⟨[], some feeTx5, some ⟨true, some "9007199254740993", none⟩, 0,
    9007199254740993, true, "paysig5", .finalized⟩

/-- A fee transaction that passes verification for wallet W5s, with a small
entitlement. -/
def feeTx5s : ParsedTx :=
  ⟨some ⟨false⟩, ["W5s"],
    [⟨"system", some "transfer", some ⟨"W5s", "FC", 15000000⟩⟩]⟩

/-- Environment with a small entitlement, below the double-exact range. -/
def envC5s : CompleteEnv :=
  ⟨[], some feeTx5s, some ⟨true, some "500", none⟩, 2, 1000000, true,
    "paysig5s", .finalized⟩

/-- A parsed fee transaction with a matching transfer instruction, used to
instantiate the fee-verification characterization. -/
def feeTx6 : ParsedTx :=
  ⟨some ⟨false⟩, ["W6"], [⟨"system", some "transfer", some ⟨"W6", "FC", 5⟩⟩]⟩

/-- A fee transaction for wallet W7 (fee checks pass). -/
def feeTx7 : ParsedTx :=
  ⟨some ⟨false⟩, ["W7"], [⟨"system", some "transfer", some ⟨"W7", "FC", 15000000⟩⟩]⟩

/-- Environment whose treasury balance is below the required amount for the
primary channel. -/
def envC7 : CompleteEnv :=
  ⟨[], some feeTx7, some ⟨true, some "40000", none⟩, 6, 39999999999, true,
    "paysig7", .finalized⟩

/-- Environment whose treasury balance is below the required amount for the
referral channel. -/
def envR7 : ReferralEnv :=
  ⟨[], some "finalized", some ⟨some 7⟩, 6, 6999999, true, "paysig7r", .finalized⟩

/-- A fee transaction for wallet W8 (fee checks pass). -/
def feeTx8 : ParsedTx :=
  ⟨some ⟨false⟩, ["W8"], [⟨"system", some "transfer", some ⟨"W8", "FC", 15000000⟩⟩]⟩

/-- Environment in which the payout is submitted but the finality wait times
out. -/
def envC8 : CompleteEnv :=
  ⟨[], some feeTx8, some ⟨true, some "40000", none⟩, 6, 100000000000, true,
    "paysig8", .timeout⟩

/-- Environment for a referral request whose oracle bonus is zero, with a
finalized proof signature. -/
def envR9 : ReferralEnv :=
  ⟨[], some "finalized", some ⟨some 0⟩, 6, 1000000, true, "paysig9", .finalized⟩

/-- A fee transaction for mixed-case wallet WaLLet10. -/
def feeTx10 : ParsedTx :=
  ⟨some ⟨false⟩, ["WaLLet10"],
    [⟨"system", some "transfer", some ⟨"WaLLet10", "FC", 15000000⟩⟩]⟩

/-- Environment in which a primary claim by the mixed-case wallet succeeds. -/
def envC10 : CompleteEnv :=
  ⟨[], some feeTx10, some ⟨true, some "40000", none⟩, 6, 100000000000, true,
    "paysig10", .finalized⟩

/-- Environment in which a referral claim by the mixed-case wallet succeeds. -/
def envR10 : ReferralEnv :=
  ⟨[], some "finalized", some ⟨some 7⟩, 6, 100000000000, true, "paysig10r",
    .finalized⟩

/-!
Helper lemmas.
-/

/-- Unfolding of the per-instruction fee condition into its conjuncts. -/
lemma ixMatchesFee_eq_true (w fc : String) (fee : Nat) (sm : Bool) (ix : ParsedIx) :
    ixMatchesFee w fc fee sm ix = true ↔
      ix.program = "system" ∧ ix.ptype = some "transfer" ∧
      ∃ info, ix.info = some info ∧ info.destination = fc ∧ info.source = w ∧
        info.lamports = fee ∧ sm = true := by
  unfold ixMatchesFee
  cases h : ix.info with
  | none => simp [h]
  | some i => simp [h, Bool.and_eq_true, beq_iff_eq, and_assoc]

/-- Characterization of a successful fee verification on a present parsed
transaction. -/
lemma feeVerify_some_ok_iff (w fc : String) (fee : Nat) (p : ParsedTx) :
    feeVerify w fc fee (some p) = .ok ↔
      (∃ m, p.meta = some m ∧ m.err = false) ∧
      p.accountKeys.head? = some w ∧
      ∃ ix ∈ p.instructions, ix.program = "system" ∧ ix.ptype = some "transfer" ∧
        ∃ info, ix.info = some info ∧ info.destination = fc ∧ info.source = w ∧
          info.lamports = fee := by
  cases hm : p.meta with
  | none => simp [feeVerify, hm]
  | some m =>
    cases he : m.err with
    | true => simp [feeVerify, hm, he]
    | false =>
      cases ha : p.instructions.any
          (ixMatchesFee w fc fee (p.accountKeys.head? == some w)) with
      | true =>
        refine iff_of_true ?_ ?_
        · simp [feeVerify, hm, he, ha]
        · rcases List.any_eq_true.mp ha with ⟨ix, hmem, hix⟩
          rcases (ixMatchesFee_eq_true w fc fee _ ix).mp hix with
            ⟨h1, h2, info, h3, h4, h5, h6, hsm⟩
          exact ⟨⟨m, rfl, he⟩, eq_of_beq hsm, ix, hmem, h1, h2, info, h3, h4, h5, h6⟩
      | false =>
        refine iff_of_false ?_ ?_
        · simp [feeVerify, hm, he, ha]
        · rintro ⟨-, hhead, ix, hmem, h1, h2, info, h3, h4, h5, h6⟩
          have hix : ixMatchesFee w fc fee (p.accountKeys.head? == some w) ix = true := by
            rw [ixMatchesFee_eq_true]
            exact ⟨h1, h2, info, h3, h4, h5, h6, by rw [hhead]; exact beq_self_eq_true _⟩
          have : p.instructions.any
              (ixMatchesFee w fc fee (p.accountKeys.head? == some w)) = true :=
            List.any_eq_true.mpr ⟨ix, hmem, hix⟩
          rw [ha] at this
          exact Bool.false_ne_true this

/-- Folding the digit-accumulation step over a run of zero characters
multiplies the accumulator by the corresponding power of ten. -/
lemma foldlDigits_replicate_zero (a D : Nat) :
    List.foldl (fun a c => a * 10 + digitVal c) a (List.replicate D '0') =
      a * 10 ^ D := by
  induction D generalizing a with
  | zero => simp
  | succ d ih =>
    rw [List.replicate_succ, List.foldl_cons, ih]
    have h0 : digitVal '0' = 0 := rfl
    rw [h0]
    ring

/-- Appending D zero digits to a digit string multiplies its decimal reading
by ten to the D. -/
lemma parseDigits_append_zeros (s : String) (D : Nat) :
    parseDigits (s ++ String.mk (List.replicate D '0')) = parseDigits s * 10 ^ D := by
  unfold parseDigits parseDigitsL
  rw [String.data_append, List.foldl_append]
  exact foldlDigits_replicate_zero _ D

/-- The Number conversion is exact below 2 to the 53. -/
lemma jsNumber_of_lt (n : Nat) (h : n < 2 ^ 53) : jsNumber n = n := by
  unfold jsNumber
  rw [if_pos h]

/-- The invariant holds initially. -/
lemma recOK_initSys : recOK initSys = true := rfl

/-- One interleaved step preserves the invariant. -/
lemma recOK_sysStep (s : SysState) (who : Bool) (h : recOK s = true) :
    recOK (sysStep s who) = true := by
  rcases s with ⟨⟨pa, da⟩, ⟨pb, db⟩, c, n⟩
  cases who <;> cases c <;> cases pa <;> cases pb <;>
    simp_all [recOK, sysStep, stepReq]

/-- Running any schedule preserves the invariant. -/
lemma recOK_runSched (sched : List Bool) (s : SysState) (h : recOK s = true) :
    recOK (runSched sched s) = true := by
  induction sched generalizing s with
  | nil => exact h
  | cons w ws ih =>
    simp only [runSched, List.foldl_cons] at *
    exact ih _ (recOK_sysStep s w h)

/-- The invariant bounds the number of recorded outcomes by one. -/
lemma recCount_le_one_of_recOK (s : SysState) (h : recOK s = true) :
    recCount s ≤ 1 := by
  rcases s with ⟨⟨pa, da⟩, ⟨pb, db⟩, c, n⟩
  cases pa <;> cases pb <;> simp_all [recOK, recCount]

/-!
Claim theorems.
-/

/-- C1 (counterexample). The claim asserts that no interleaving of two
concurrent settlement attempts for the same wallet and channel produces two
disbursements, because a reservation insert precedes the disbursement. In
the model of the source (existence check, then disbursement, then final
insert, with no reservation write), the interleaving in which both requests
pass the existence check before either inserts submits two disbursements:
the first request ends recorded, the second ends in an insert conflict, and
the disbursement count is two. -/
theorem double_disbursement_interleaving :
    (runSched [true, false, true, true, false, false] initSys).disbCount = 2 ∧
    (runSched [true, false, true, true, false, false] initSys).a.phase =
      .doneRecorded ∧
    (runSched [true, false, true, true, false, false] initSys).b.phase =
      .doneConflict ∧
    (runSched [true, false, true, true, false, false] initSys).a.disbursed = true ∧
    (runSched [true, false, true, true, false, false] initSys).b.disbursed = true := by
  decide

/-- C1 (amended). Under every interleaving of the two concurrent attempts,
at most one attempt reaches the recorded outcome: the final insert is guarded
by the uniqueness of the wallet key, so the competing insert fails as a
conflict. (The disbursement itself is not so guarded; see the
counterexample.) -/
theorem at_most_one_recorded_under_interleaving (sched : List Bool) :
    recCount (runSched sched initSys) ≤ 1 :=
  recCount_le_one_of_recOK _ (recOK_runSched sched initSys recOK_initSys)

/-- C2. A wallet with an existing settled record in a channel has its repeat
settlement attempt in that channel rejected with HTTP 400 and the duplicate
message, with an empty interaction list: no ledger read, no transaction
build or submission, and no record write occur, because the duplicate check
is the first operation of either handler. -/
theorem duplicate_claim_rejected_without_ledger (fc : String) (fee : Nat)
    (w fs ts : String) (envC : CompleteEnv) (envR : ReferralEnv) :
    (alreadyClaimed envC.store w = true →
      claimComplete fc fee (some w) (some fs) envC =
        ⟨400, some "Already claimed", none, none, []⟩) ∧
    (refAlreadyClaimed envR.store w = true →
      claimReferral (some w) (some ts) envR =
        ⟨400, some "Referral bonus already claimed", none, none, []⟩) := by
  constructor
  · intro h
    simp [claimComplete, h]
  · intro h
    simp [claimReferral, h]

/-- C2 (witness). Concrete instantiation: a store holding the record for the
wallet key alice rejects a repeat attempt by Alice in both channels. -/
theorem duplicate_claim_rejected_without_ledger_witness :
    claimComplete "FC" 15000000 (some "Alice") (some "fs") envC2 =
      ⟨400, some "Already claimed", none, none, []⟩ ∧
    claimReferral (some "Alice") (some "ts") envR2 =
      ⟨400, some "Referral bonus already claimed", none, none, []⟩ :=
  ⟨(duplicate_claim_rejected_without_ledger "FC" 15000000 "Alice" "fs" "ts"
      envC2 envR2).1 (by decide),
   (duplicate_claim_rejected_without_ledger "FC" 15000000 "Alice" "fs" "ts"
      envC2 envR2).2 (by decide)⟩

/-- C6. Fee verification succeeds if and only if the fetched parsed
transaction exists, carries meta, did not fail, its first account key equals
the wallet string verbatim, and some instruction is a system transfer whose
parsed source equals the wallet, destination equals the fee collector, and
lamports equal the configured fee exactly; moreover, for a transaction that
exists and did not fail, the only possible outcomes are success or the
FeePaymentInvalid rejection, so any mismatch of amount, source or
destination is rejected as FeePaymentInvalid. -/
theorem fee_verification_characterization (wallet feeCollector : String)
    (fee : Nat) (parsed : Option ParsedTx) :
    (feeVerify wallet feeCollector fee parsed = .ok ↔
      ∃ p, parsed = some p ∧ (∃ m, p.meta = some m ∧ m.err = false) ∧
        p.accountKeys.head? = some wallet ∧
        ∃ ix ∈ p.instructions, ix.program = "system" ∧ ix.ptype = some "transfer" ∧
          ∃ info, ix.info = some info ∧ info.destination = feeCollector ∧
            info.source = wallet ∧ info.lamports = fee) ∧
    (∀ p m, parsed = some p → p.meta = some m → m.err = false →
      feeVerify wallet feeCollector fee parsed = .ok ∨
      feeVerify wallet feeCollector fee parsed = .invalid) := by
  constructor
  · cases parsed with
    | none =>
      simp [feeVerify]
    | some p =>
      rw [feeVerify_some_ok_iff]
      constructor
      · intro h
        exact ⟨p, rfl, h⟩
      · rintro ⟨p2, hp2, h⟩
        cases hp2
        exact h
  · rintro p m rfl hm he
    cases hb : p.instructions.any
        (ixMatchesFee wallet feeCollector fee (p.accountKeys.head? == some wallet)) with
    | true =>
      left
      simp [feeVerify, hm, he, hb]
    | false =>
      right
      simp [feeVerify, hm, he, hb]

/-- C6 (witness). Concrete instantiation: the characterization applied to a
present, non-failed transaction with a matching transfer instruction, and
the exact-match iff evaluated there. -/
theorem fee_verification_characterization_witness :
    (feeVerify "W6" "FC" 5 (some feeTx6) = .ok ∨
     feeVerify "W6" "FC" 5 (some feeTx6) = .invalid) ∧
    feeVerify "W6" "FC" 5 (some feeTx6) = .ok :=
  ⟨(fee_verification_characterization "W6" "FC" 5 (some feeTx6)).2 feeTx6 ⟨false⟩
      rfl rfl rfl,
   (fee_verification_characterization "W6" "FC" 5 (some feeTx6)).1.mpr
     ⟨feeTx6, rfl, ⟨⟨false⟩, rfl, rfl⟩, rfl,
      ⟨"system", some "transfer", some ⟨"W6", "FC", 5⟩⟩, by decide, rfl, rfl,
      ⟨"W6", "FC", 5⟩, rfl, rfl, rfl, rfl⟩⟩

/-- C3. In both channels a claim record appears in the result only when the
finality wait succeeded; the written record carries status confirmed, and the
interaction trace is the full pipeline with the record write strictly after
the submission and the finality wait. By contraposition, an abort at any
verification, eligibility or balance stage (any shorter trace) writes no
record. -/
theorem record_written_only_after_finality (fc : String) (fee : Nat)
    (wallet feeSig txSig : Option String) (envC : CompleteEnv) (envR : ReferralEnv)
    (r : StoredClaim) (rr : RefStored) :
    ((claimComplete fc fee wallet feeSig envC).record = some r →
      envC.confirm = .finalized ∧ r.status = "confirmed" ∧
      (claimComplete fc fee wallet feeSig envC).events =
        [.parsedTxFetch, .oracleCall, .mintFetch, .balanceFetch, .ataFetch,
         .blockhashFetch, .txSubmit, .confirmWait, .recordWrite]) ∧
    ((claimReferral wallet txSig envR).record = some rr →
      envR.confirm = .finalized ∧ rr.status = "confirmed" ∧
      (claimReferral wallet txSig envR).events =
        [.statusQuery, .oracleCall, .mintFetch, .balanceFetch, .ataFetch,
         .blockhashFetch, .txSubmit, .confirmWait, .recordWrite]) := by
  constructor
  · intro h
    unfold claimComplete at *
    iterate 10 (all_goals try split at h
                all_goals try simp at h)
    all_goals try subst h
    all_goals try simp_all
    all_goals try split
    all_goals try split
    all_goals (first | rfl | (exfalso; omega) | simp_all)
  · intro h
    unfold claimReferral at *
    iterate 10 (all_goals try split at h
                all_goals try simp at h)
    all_goals try subst h
    all_goals try simp_all
    all_goals try split
    all_goals try split
    all_goals (first | rfl | (exfalso; omega) | simp_all)

/-- C3 (witness). Concrete instantiation on fully succeeding environments in
both channels. -/
theorem record_written_only_after_finality_witness :
    (envC3.confirm = .finalized ∧
      (⟨"w3", 40000000000, "40000", 6, some 2, "paysig3", "fs3", "confirmed"⟩ :
        StoredClaim).status = "confirmed" ∧
      (claimComplete "FC" 15000000 (some "W3") (some "fs3") envC3).events =
        [.parsedTxFetch, .oracleCall, .mintFetch, .balanceFetch, .ataFetch,
         .blockhashFetch, .txSubmit, .confirmWait, .recordWrite]) ∧
    (envR3.confirm = .finalized ∧
      (⟨"w3", 7000000, "paysig3r", "confirmed"⟩ : RefStored).status = "confirmed" ∧
      (claimReferral (some "W3") (some "ts3") envR3).events =
        [.statusQuery, .oracleCall, .mintFetch, .balanceFetch, .ataFetch,
         .blockhashFetch, .txSubmit, .confirmWait, .recordWrite]) :=
  ⟨(record_written_only_after_finality "FC" 15000000 (some "W3") (some "fs3")
      (some "ts3") envC3 envR3
      ⟨"w3", 40000000000, "40000", 6, some 2, "paysig3", "fs3", "confirmed"⟩
      ⟨"w3", 7000000, "paysig3r", "confirmed"⟩).1 (by decide),
   (record_written_only_after_finality "FC" 15000000 (some "W3") (some "fs3")
      (some "ts3") envC3 envR3
      ⟨"w3", 40000000000, "40000", 6, some 2, "paysig3", "fs3", "confirmed"⟩
      ⟨"w3", 7000000, "paysig3r", "confirmed"⟩).2 (by decide)⟩

/-- C4. The base-unit conversion is exact integer arithmetic: for every digit
string H and decimal exponent D, the computed amount parseDigits H times ten
to the D equals H followed by D zero digits read as an integer; and every
record the primary handler writes satisfies amount equal to humanAmount times
ten to the decimals. -/
theorem amount_conversion_exact :
    (∀ (H : String) (D : Nat), isDigits H = true →
      parseDigits H * 10 ^ D =
        parseDigits (H ++ String.mk (List.replicate D '0'))) ∧
    (∀ (fc : String) (fee : Nat) (wallet feeSig : Option String)
      (envC : CompleteEnv) (r : StoredClaim),
      (claimComplete fc fee wallet feeSig envC).record = some r →
      r.amount = parseDigits r.humanAmount * 10 ^ r.decimals) := by
  constructor
  · intro H D _
    exact (parseDigits_append_zeros H D).symm
  · intro fc fee wallet feeSig envC r h
    unfold claimComplete at *
    iterate 10 (all_goals try split at h
                all_goals try simp at h)
    all_goals try subst h
    all_goals simp_all

/-- C4 (witness). Concrete instantiation: H equal to 40000 with six decimals
gives 40000000000, and the record written for that entitlement satisfies the
invariant. -/
theorem amount_conversion_exact_witness :
    parseDigits "40000" * 10 ^ 6 =
      parseDigits ("40000" ++ String.mk (List.replicate 6 '0')) ∧
    (⟨"w4", 40000000000, "40000", 6, none, "paysig4", "fs4", "confirmed"⟩ :
      StoredClaim).amount =
      parseDigits
        (⟨"w4", 40000000000, "40000", 6, none, "paysig4", "fs4", "confirmed"⟩ :
          StoredClaim).humanAmount *
        10 ^ (⟨"w4", 40000000000, "40000", 6, none, "paysig4", "fs4", "confirmed"⟩ :
          StoredClaim).decimals :=
  ⟨amount_conversion_exact.1 "40000" 6 (by decide),
   amount_conversion_exact.2 "FC" 15000000 (some "W4") (some "fs4") envC4
     ⟨"w4", 40000000000, "40000", 6, none, "paysig4", "fs4", "confirmed"⟩
     (by decide)⟩

/-- C5 (counterexample). The claim asserts that base-unit amounts beyond the
safe-integer range of a double are carried as arbitrary-precision integers
up to and including the transfer instruction. For an entitlement of 2 to the
53 plus 1 base units the handler stores amount 9007199254740993 but passes
9007199254740992 to the transfer instruction: the Number conversion at the
ledger-submission boundary silently rounds the amount. -/
theorem transfer_amount_truncated_above_double_range :
    ((claimComplete "FC" 15000000 (some "W5c") (some "f5") envC5).record.map
        StoredClaim.amount) = some 9007199254740993 ∧
    ((claimComplete "FC" 15000000 (some "W5c") (some "f5") envC5).builtTx.map
        BuiltTransfer.transferAmount) = some 9007199254740992 := by
  decide

/-- C5 (amended). The amount placed in the transfer instruction is the
double rounding of the exact stored amount: it equals jsNumber of the record
amount, and agrees with the record amount exactly whenever that amount is
below 2 to the 53. -/
theorem transfer_amount_is_double_rounding (fc : String) (fee : Nat)
    (wallet feeSig : Option String) (envC : CompleteEnv) (r : StoredClaim) :
    (claimComplete fc fee wallet feeSig envC).record = some r →
    (claimComplete fc fee wallet feeSig envC).builtTx =
      some ⟨!envC.userAtaExists, jsNumber r.amount⟩ ∧
    (r.amount < 2 ^ 53 →
      (claimComplete fc fee wallet feeSig envC).builtTx =
        some ⟨!envC.userAtaExists, r.amount⟩) := by
  intro h
  unfold claimComplete at *
  iterate 10 (all_goals try split at h
              all_goals try simp at h)
  all_goals try subst h
  all_goals try simp_all
  all_goals try split
  all_goals try split
  all_goals (first
    | rfl
    | (exfalso; omega)
    | (exact ⟨rfl, fun hlt => by rw [jsNumber_of_lt _ hlt]⟩)
    | simp_all)

/-- C5 (amended witness). Concrete instantiation: a 500-token entitlement
with two decimals stays below 2 to the 53, and the transfer instruction
carries it exactly. -/
theorem transfer_amount_is_double_rounding_witness :
    (claimComplete "FC" 15000000 (some "W5s") (some "f5s") envC5s).builtTx =
      some ⟨false, jsNumber 50000⟩ ∧
    (50000 < 2 ^ 53 →
      (claimComplete "FC" 15000000 (some "W5s") (some "f5s") envC5s).builtTx =
        some ⟨false, 50000⟩) :=
  transfer_amount_is_double_rounding "FC" 15000000 (some "W5s") (some "f5s")
    envC5s ⟨"w5s", 50000, "500", 2, none, "paysig5s", "f5s", "confirmed"⟩
    (by decide)

/-- C7. When the treasury token balance is strictly below the computed
required amount, both handlers abort with the insufficient-treasury error:
the trace stops at the balance fetch, no transaction is built or submitted,
and no record is written. -/
theorem insufficient_treasury_aborts (fc : String) (fee : Nat) (w fs ts : String)
    (envC : CompleteEnv) (envR : ReferralEnv) (eg : Elig) (s : String)
    (re : RefElig) (b : Int) :
    (alreadyClaimed envC.store w = false →
      feeVerify w fc fee envC.parsedFeeTx = .ok →
      envC.elig = some eg → eg.eligible = true → eg.finalTotal = some s →
      isDigits s = true →
      envC.treasuryBalance < parseDigits s * 10 ^ envC.mintDecimals →
      claimComplete fc fee (some w) (some fs) envC =
        ⟨400, some "Treasury balance insufficient", none, none,
          [.parsedTxFetch, .oracleCall, .mintFetch, .balanceFetch]⟩) ∧
    (refAlreadyClaimed envR.store w = false →
      envR.sigStatus = some "finalized" →
      envR.elig = some re → re.referralBonus = some b → 0 < b →
      isDigits (toString b) = true →
      envR.treasuryBalance < parseDigits (toString b) * 10 ^ envR.mintDecimals →
      claimReferral (some w) (some ts) envR =
        ⟨500, some "Treasury balance insufficient for referral bonus", none, none,
          [.statusQuery, .oracleCall, .mintFetch, .balanceFetch]⟩) := by
  constructor
  · intro hA hF hE hEl hFt hD hlt
    simp [claimComplete, hA, hF, hE, hEl, hFt, hD, hlt]
  · intro hA hS hE hB hpos hD hlt
    have hnb : ¬b ≤ 0 := by omega
    simp [claimReferral, hA, hS, hE, hB, hnb, hD, hlt]

/-- C7 (witness). Concrete instantiation: balances one base unit short of
the requirement in each channel. -/
theorem insufficient_treasury_aborts_witness :
    claimComplete "FC" 15000000 (some "W7") (some "fs7") envC7 =
      ⟨400, some "Treasury balance insufficient", none, none,
        [.parsedTxFetch, .oracleCall, .mintFetch, .balanceFetch]⟩ ∧
    claimReferral (some "W7") (some "ts7") envR7 =
      ⟨500, some "Treasury balance insufficient for referral bonus", none, none,
        [.statusQuery, .oracleCall, .mintFetch, .balanceFetch]⟩ :=
  ⟨(insufficient_treasury_aborts "FC" 15000000 "W7" "fs7" "ts7" envC7 envR7
      ⟨true, some "40000", none⟩ "40000" ⟨some 7⟩ 7).1 (by decide) (by decide)
      (by decide) (by decide) (by decide) (by decide) (by decide),
   (insufficient_treasury_aborts "FC" 15000000 "W7" "fs7" "ts7" envC7 envR7
      ⟨true, some "40000", none⟩ "40000" ⟨some 7⟩ 7).2 (by decide) (by decide)
      (by decide) (by decide) (by decide) (by decide) (by decide)⟩

/-- C8 (counterexample). The claim asserts that when finality is not
observed within the bounded wait, the system re-queries the transaction
status before concluding non-delivery and reporting an error. In the
environment where the wait times out after submission, the handler reports a
500 error with no record written, and its interaction trace contains the
submission but no status query at all: the timeout is concluded to be a
failure without any re-query. -/
theorem finality_timeout_reported_without_requery :
    (claimComplete "FC" 15000000 (some "W8") (some "fs8") envC8).status = 500 ∧
    (claimComplete "FC" 15000000 (some "W8") (some "fs8") envC8).record = none ∧
    ((claimComplete "FC" 15000000 (some "W8") (some "fs8") envC8).events.contains
        .txSubmit) = true ∧
    ((claimComplete "FC" 15000000 (some "W8") (some "fs8") envC8).events.contains
        .statusQuery) = false := by
  decide

/-- C8 (amended). A finality timeout after submission is surfaced to the
caller as a 500 error with no record written; the trace ends at the finality
wait and contains no status re-query, so the payout may have landed while
the caller sees an error. -/
theorem finality_timeout_behavior (fc : String) (fee : Nat) (w fs : String)
    (envC : CompleteEnv) (eg : Elig) (s : String) :
    alreadyClaimed envC.store w = false →
    feeVerify w fc fee envC.parsedFeeTx = .ok →
    envC.elig = some eg → eg.eligible = true → eg.finalTotal = some s →
    isDigits s = true →
    parseDigits s * 10 ^ envC.mintDecimals ≤ envC.treasuryBalance →
    envC.confirm = .timeout →
    claimComplete fc fee (some w) (some fs) envC =
      ⟨500, some "finality timeout", none,
        some ⟨!envC.userAtaExists,
          jsNumber (parseDigits s * 10 ^ envC.mintDecimals)⟩,
        [.parsedTxFetch, .oracleCall, .mintFetch, .balanceFetch, .ataFetch,
         .blockhashFetch, .txSubmit, .confirmWait]⟩ := by
  intro hA hF hE hEl hFt hD hge hC
  simp [claimComplete, hA, hF, hE, hEl, hFt, hD, Nat.not_lt.mpr hge, hC]

/-- C8 (amended witness). Concrete instantiation on the timeout
environment. -/
theorem finality_timeout_behavior_witness :
    claimComplete "FC" 15000000 (some "W8") (some "fs8") envC8 =
      ⟨500, some "finality timeout", none, some ⟨false, jsNumber 40000000000⟩,
        [.parsedTxFetch, .oracleCall, .mintFetch, .balanceFetch, .ataFetch,
         .blockhashFetch, .txSubmit, .confirmWait]⟩ :=
  finality_timeout_behavior "FC" 15000000 "W8" "fs8" envC8
    ⟨true, some "40000", none⟩ "40000" (by decide) (by decide) (by decide)
    (by decide) (by decide) (by decide) (by decide) (by decide)

/-- C9 (counterexample). The claim asserts that an oracle response with a
zero or negative referral bonus yields the 400 rejection with no ledger
interaction. With a zero bonus the handler does return 400 with the expected
message, but its trace already contains a ledger interaction: the
signature-status query performed before the bonus check. -/
theorem zero_bonus_rejection_has_ledger_interaction :
    (claimReferral (some "W9") (some "ts9") envR9).status = 400 ∧
    (claimReferral (some "W9") (some "ts9") envR9).error =
      some "No pending referral bonus to claim." ∧
    ((claimReferral (some "W9") (some "ts9") envR9).events.any isLedgerEvent) =
      true := by
  decide

/-- C9 (amended). A zero or negative referral bonus is rejected with HTTP
400 and the expected message, no record is written and no transaction is
built or submitted; the trace up to that point consists of exactly the
signature-status ledger query and the oracle call, so no ledger interaction
occurs after the bonus check but one status query occurs before it. -/
theorem zero_bonus_rejected_after_status_query (w ts : String)
    (envR : ReferralEnv) (re : RefElig) (b : Int) :
    refAlreadyClaimed envR.store w = false →
    envR.sigStatus = some "finalized" →
    envR.elig = some re → re.referralBonus = some b → b ≤ 0 →
    claimReferral (some w) (some ts) envR =
      ⟨400, some "No pending referral bonus to claim.", none, none,
        [.statusQuery, .oracleCall]⟩ := by
  intro hA hS hE hB hb
  simp [claimReferral, hA, hS, hE, hB, hb]

/-- C9 (amended witness). Concrete instantiation on the zero-bonus
environment. -/
theorem zero_bonus_rejected_after_status_query_witness :
    claimReferral (some "W9") (some "ts9") envR9 =
      ⟨400, some "No pending referral bonus to claim.", none, none,
        [.statusQuery, .oracleCall]⟩ :=
  zero_bonus_rejected_after_status_query "W9" "ts9" envR9 ⟨some 0⟩ 0
    (by decide) (by decide) (by decide) (by decide) (by decide)

/-- C10. The duplicate-claim lookup depends only on the lowercase form of
the wallet string, so two wallet strings with equal lowercase forms are
interchangeable there; both handlers key the written record by the lowercase
wallet; and fee verification succeeding forces the first account key and the
matching instruction source to equal the submitted wallet string verbatim,
so a wallet string in the wrong case cannot pass fee verification even
though it is keyed and blocked under its lowercase form. -/
theorem lowercase_keying_and_casesensitive_fee_check :
    (∀ (store : List StoredClaim) (w1 w2 : String), lowerStr w1 = lowerStr w2 →
      alreadyClaimed store w1 = alreadyClaimed store w2) ∧
    (∀ (fc : String) (fee : Nat) (w fs : String) (envC : CompleteEnv)
      (r : StoredClaim),
      (claimComplete fc fee (some w) (some fs) envC).record = some r →
      r.wallet = lowerStr w) ∧
    (∀ (w ts : String) (envR : ReferralEnv) (rr : RefStored),
      (claimReferral (some w) (some ts) envR).record = some rr →
      rr.wallet = lowerStr w) ∧
    (∀ (w fc : String) (fee : Nat) (p : ParsedTx),
      feeVerify w fc fee (some p) = .ok →
      p.accountKeys.head? = some w ∧
      ∃ ix ∈ p.instructions, ∃ info, ix.info = some info ∧ info.source = w) := by
  refine ⟨?_, ?_, ?_, ?_⟩
  · intro store w1 w2 h
    unfold alreadyClaimed
    rw [h]
  · intro fc fee w fs envC r h
    unfold claimComplete at *
    iterate 10 (all_goals try split at h
                all_goals try simp at h)
    all_goals try subst h
    all_goals simp_all
  · intro w ts envR rr h
    unfold claimReferral at *
    iterate 10 (all_goals try split at h
                all_goals try simp at h)
    all_goals try subst h
    all_goals simp_all
  · intro w fc fee p h
    rcases (feeVerify_some_ok_iff w fc fee p).mp h with
      ⟨-, hhead, ix, hmem, -, -, info, hinfo, -, hsrc, -⟩
    exact ⟨hhead, ix, hmem, info, hinfo, hsrc⟩

/-- C10 (witness). Concrete instantiation: two casings of one wallet are
interchangeable in the duplicate lookup; the record written for the
mixed-case wallet is keyed by its lowercase form in both channels; and
successful fee verification pins the first account key and the instruction
source to the mixed-case string verbatim. -/
theorem lowercase_keying_and_casesensitive_fee_check_witness :
    alreadyClaimed storeC2 "ALICE" = alreadyClaimed storeC2 "alice" ∧
    (⟨"wallet10", 40000000000, "40000", 6, none, "paysig10", "fs10",
        "confirmed"⟩ : StoredClaim).wallet = lowerStr "WaLLet10" ∧
    (⟨"wallet10", 7000000, "paysig10r", "confirmed"⟩ : RefStored).wallet =
      lowerStr "WaLLet10" ∧
    ((feeTx10.accountKeys.head? = some "WaLLet10") ∧
      ∃ ix ∈ feeTx10.instructions, ∃ info, ix.info = some info ∧
        info.source = "WaLLet10") :=
  ⟨lowercase_keying_and_casesensitive_fee_check.1 storeC2 "ALICE" "alice"
      (by decide),
   lowercase_keying_and_casesensitive_fee_check.2.1 "FC" 15000000 "WaLLet10"
      "fs10" envC10
      ⟨"wallet10", 40000000000, "40000", 6, none, "paysig10", "fs10", "confirmed"⟩
      (by decide),
   lowercase_keying_and_casesensitive_fee_check.2.2.1 "WaLLet10" "ts10" envR10
      ⟨"wallet10", 7000000, "paysig10r", "confirmed"⟩ (by decide),
   lowercase_keying_and_casesensitive_fee_check.2.2.2 "WaLLet10" "FC" 15000000
      feeTx10 (by decide)⟩

end ClaimServer
